import Mathlib

/-
Verification of the natural-language specification of the ESP-Signer
TCP client (src/src/client/GAuth_TCP_Client.h) against the source.

The class GAuth_TCP_Client wraps an underlying TLS socket object
(WiFiClientSecure on ESP32 / BearSSL WiFiClientSecure on ESP8266 and
PICO_RP2040).  The underlying socket, the WiFi stack and the filesystem
(MB_FS) are external collaborators; they are modelled as oracle records
whose fields fix the answers the collaborator would give during one call.
The class state (certType, host, port, response_code pointer, timeout,
clockReady, the owned client pointer) is a Lean structure, and each
member function is a state-passing Lean function translated line by line
from the source.

Machine-integer remarks: the targets are 32-bit; int and size_t are both
32 bits wide, so the implicit int/size_t conversions in the source
(write returns size_t but returns int error codes through it, and send
converts the size_t back to int) are value-preserving round trips mod
2^32.  The branch conditions of the source never depend on these casts,
so the model uses Int for the returned values throughout.
-/

/-- The esp_signer_cert_type enumeration used for certType. -/
inductive CertType
  | type_undefined
  | type_none
  | type_data
  | type_file
  deriving DecidableEq

/-- Trust configuration visible on the underlying TLS client: no trust
anchor installed yet, a CA anchor installed (setCACert / setTrustAnchors
/ loadCACert), or certificate validation disabled (setInsecure).  On
ESP32 the setInsecure call sits behind an ESP-IDF version guard that is
satisfied for every IDF release since 3.3.0; the model assumes such a
toolchain. -/
inductive Trust
  | trustUnset
  | trustAnchor
  | trustInsecure
  deriving DecidableEq

/-- Where connect() dialled: the stored host string or the stored IP. -/
inductive DialTarget
  | toHost (h : String)
  | toIP (ip : Nat)
  deriving DecidableEq

/-- Oracle model of the underlying socket object (WiFiClientSecure).
conn is what connected() currently reports; dialRet is what the next
connect(host, port) call returns; connAfterDial is what connected()
reports after that dial; writeRet and readBytesRet are the byte counts
the next write / readBytes calls return; pending is the buffered input
consumed by available() / read() / peek().  writeCalls counts the write
calls issued to the socket, and dialed records the last dial target, so
that theorems can state that no write or no dial happened.  readBytes is
modelled as a pure count oracle: the bytes it would deposit in the
caller buffer play no role in any claim. -/
structure LowClient where
  conn : Bool := false
  dialRet : Bool := false
  connAfterDial : Bool := false
  writeRet : Int := 0
  readBytesRet : Int := 0
  pending : List Int := []
  timeoutSet : Option Nat := none
  setTimeoutRet : Int := 0
  trust : Trust := Trust.trustUnset
  stopped : Bool := false
  writeCalls : Nat := 0
  dialed : Option DialTarget := none
  deriving DecidableEq

/-- client->connect(host-or-ip, port): returns the oracle dial result and
afterwards connected() reports connAfterDial. -/
def LowClient.ldial (c : LowClient) (t : DialTarget) : Bool × LowClient :=
  (c.dialRet, { c with conn := c.connAfterDial, dialed := some t })

/-- client->write(data, size): returns the oracle byte count. -/
def LowClient.lwrite (c : LowClient) : Int × LowClient :=
  (c.writeRet, { c with writeCalls := c.writeCalls + 1 })

/-- client->read(): pops one buffered byte, -1 when none is buffered. -/
def LowClient.lread (c : LowClient) : Int × LowClient :=
  match c.pending with
  | [] => (-1, c)
  | b :: r => (b, { c with pending := r })

/-- client->peek(): first buffered byte without consuming, -1 if none. -/
def LowClient.lpeek (c : LowClient) : Int :=
  match c.pending with
  | [] => -1
  | b :: _ => b

/-- client->stop(): drops the connection. -/
def LowClient.lstop (c : LowClient) : LowClient :=
  { c with conn := false, stopped := true }

/-- client->setTimeout(t): records the applied timeout, returns the
oracle result of the underlying call. -/
def LowClient.lsetTimeout (c : LowClient) (t : Nat) : Int × LowClient :=
  (c.setTimeoutRet, { c with timeoutSet := some t })

/-- The flush() loop reads one byte per iteration while available() > 0;
one iteration removes the head of the pending list. -/
def drainPending : List Int → List Int
  | [] => []
  | _ :: r => drainPending r

/-- client state after the flush() loop has drained the buffered input. -/
def LowClient.drain (c : LowClient) : LowClient :=
  { c with pending := drainPending c.pending }

/-- Network environment oracle: WiFi.status() == WL_CONNECTED and the
result of the ethLinkUp() probe of the Ethernet collaborator. -/
structure Env where
  wifiConnected : Bool := false
  ethUp : Bool := false
  deriving DecidableEq

/-- Compilation targets distinguished by the preprocessor conditionals
of the source (PICO_RP2040 shares every branch of ESP8266 in the
functions modelled here, via the combined defined(ESP8266) ||
defined(PICO_RP2040) guards). -/
inductive Platform
  | esp32
  | esp8266
  | pico
  deriving DecidableEq

/-- Filesystem build flags that select the branches of setCertFile on
ESP32: MBFS_FLASH_FS, MBFS_ESP32_SDFAT_ENABLED, MBFS_SD_FS. -/
structure BuildCfg where
  flashFS : Bool := true
  esp32SdFat : Bool := false
  sdFS : Bool := true
  deriving DecidableEq

/-- The mb_fs_mem_storage_type argument of setCertFile. -/
inductive StorageType
  | flash
  | sd
  | undefinedS
  deriving DecidableEq

/-- Oracle for the MB_FS filesystem collaborator: the length mbfs->open
returns (negative on failure).  The mbfs->available / mbfs->read pair
only fills the certificate buffer whose contents no claim mentions, so
it is not modelled further. -/
structure FSOracle where
  openLen : Int := -1
  deriving DecidableEq

/-
Error codes.  Modelled from the spec: the numeric error constants come
from ESP_Signer_Error.h, which is not under src/; the spec describes the
collaborator interface as returning count-or-error, with the errors
named in the claims (connection refused, not connected, send request
failed, response read failed) and HTTP 200 as the OK status.  They are
modelled as pairwise distinct codes, the TCP errors negative (hence
nonzero and distinct from every byte count) and HTTP OK as 200.
-/

/-- Modelled from the spec: the connection-refused TCP error code. -/
def ESP_SIGNER_ERROR_TCP_ERROR_CONNECTION_REFUSED : Int := -1

/-- Modelled from the spec: the not-connected TCP error code. -/
def ESP_SIGNER_ERROR_TCP_ERROR_NOT_CONNECTED : Int := -2

/-- Modelled from the spec: the send-request-failed TCP error code. -/
def ESP_SIGNER_ERROR_TCP_ERROR_SEND_REQUEST_FAILED : Int := -3

/-- Modelled from the spec: the response-read-failed TCP error code. -/
def ESP_SIGNER_ERROR_TCP_RESPONSE_READ_FAILED : Int := -4

/-- Modelled from the spec: the HTTP OK status code. -/
def ESP_SIGNER_ERROR_HTTP_CODE_OK : Int := 200

/-- State of a GAuth_TCP_Client object: the owned socket (none models a
null client pointer, as after release() or in an external-client build
before setClient), and the private fields with their in-class
initialisers.  response_code models the registered int pointer: none is
nullptr, some v is a pointer whose pointee currently holds v. -/
structure TCPClient where
  client : Option LowClient := some {}
  certType : CertType := CertType.type_undefined
  host : String := ""
  port : Nat := 0
  ip : Nat := 0
  response_code : Option Int := none
  timeoutmSec : Nat := 10000
  clockReady : Bool := false
  deriving DecidableEq

/-- A freshly constructed GAuth_TCP_Client (default member initialisers;
the constructor allocates the WiFiClientSecure). -/
def TCPClient.init : TCPClient := {}

/-- Applies an update to the underlying client when one is present
(every client-> call in the source requires a live client). -/
def TCPClient.mapLow (st : TCPClient) (f : LowClient → LowClient) : TCPClient :=
  { st with client := st.client.map f }

/-- int setError(int code): -1000 and no effect when no response-code
pointer is registered, otherwise stores code through the pointer and
returns the stored value. -/
def TCPClient.setError (st : TCPClient) (code : Int) : Int × TCPClient :=
  match st.response_code with
  | none => (-1000, st)
  | some _ => (code, { st with response_code := some code })

/-- uint8_t connected(): 0 on a null client, else what the socket
reports. -/
def TCPClient.connected (st : TCPClient) : Nat :=
  match st.client with
  | none => 0
  | some c => if c.conn then 1 else 0

/-- void flush(): returns on a null client, else drains the buffered
input one read() at a time while available() > 0. -/
def TCPClient.flush (st : TCPClient) : TCPClient :=
  match st.client with
  | none => st
  | some c => { st with client := some c.drain }

/-- void stop(): returns on a null client, else stops the socket. -/
def TCPClient.stop (st : TCPClient) : TCPClient :=
  match st.client with
  | none => st
  | some c => { st with client := some c.lstop }

/-- int peek(): 0 on a null client, else the socket peek. -/
def TCPClient.peek (st : TCPClient) : Int :=
  match st.client with
  | none => 0
  | some c => c.lpeek

/-- int available(): connection-refused error on a null client, else the
buffered byte count. -/
def TCPClient.available (st : TCPClient) : Int × TCPClient :=
  match st.client with
  | none => st.setError ESP_SIGNER_ERROR_TCP_ERROR_CONNECTION_REFUSED
  | some c => ((c.pending.length : Int), st)

/-- int read(): connection-refused error on a null client; a negative
socket read becomes the response-read-failed error; otherwise the byte. -/
def TCPClient.readOne (st : TCPClient) : Int × TCPClient :=
  match st.client with
  | none => st.setError ESP_SIGNER_ERROR_TCP_ERROR_CONNECTION_REFUSED
  | some c =>
    let p := c.lread
    let st1 := { st with client := some p.2 }
    if p.1 < 0 then st1.setError ESP_SIGNER_ERROR_TCP_RESPONSE_READ_FAILED
    else (p.1, st1)

/-- int readBytes(uint8_t buf, int len): connection-refused error on a
null client; a socket count different from len becomes the
response-read-failed error; otherwise records HTTP OK and returns the
count (which equals len). -/
def TCPClient.readBytes (st : TCPClient) (len : Nat) : Int × TCPClient :=
  match st.client with
  | none => st.setError ESP_SIGNER_ERROR_TCP_ERROR_CONNECTION_REFUSED
  | some c =>
    let r := c.readBytesRet
    if r ≠ (len : Int) then st.setError ESP_SIGNER_ERROR_TCP_RESPONSE_READ_FAILED
    else
      let e := st.setError ESP_SIGNER_ERROR_HTTP_CODE_OK
      (r, e.2)

/-- int readBytes(char buf, int len): delegates to the uint8_t
overload on the same bytes. -/
def TCPClient.readBytesC (st : TCPClient) (len : Nat) : Int × TCPClient :=
  st.readBytes len

/-- int read(uint8_t buf, size_t size): delegates to readBytes. -/
def TCPClient.read (st : TCPClient) (size : Nat) : Int × TCPClient :=
  st.readBytes size

/-- bool begin(host, port, response_code): records host, port and the
response-code pointer and returns true. -/
def TCPClient.begin (st : TCPClient) (host : String) (port : Nat)
    (rc : Option Int) : Bool × TCPClient :=
  (true, { st with host := host, port := port, response_code := rc })

/-- bool networkReady(): in the internal-client build, WiFi connected or
the Ethernet link probe up. -/
def networkReady (env : Env) : Bool :=
  env.wifiConnected || env.ethUp

/-- int setTimeout(uint32_t timeoutmSec): stores the timeout; on ESP32
it returns the result of applying timeoutmSec / 1000 (seconds) to the
socket, on ESP8266 / PICO it applies timeoutmSec (milliseconds) and
falls through to return 1.  The null-client case never arises in the
internal-client build (the constructor allocates the socket). -/
def TCPClient.setTimeout (p : Platform) (st : TCPClient) (t : Nat) :
    Int × TCPClient :=
  let st1 := { st with timeoutmSec := t }
  match st1.client with
  | none => (1, st1)
  | some c =>
    match p with
    | Platform.esp32 =>
      let r := c.lsetTimeout (t / 1000)
      (r.1, { st1 with client := some r.2 })
    | _ =>
      let r := c.lsetTimeout t
      (1, { st1 with client := some r.2 })

/-- The dial target of connect(): the stored host when the host string
is nonempty, the stored IP otherwise. -/
def connectTarget (st : TCPClient) : DialTarget :=
  if st.host.length ≠ 0 then DialTarget.toHost st.host
  else DialTarget.toIP st.ip

/-- bool connect(): the body of connect() run with a live client c (the
source dereferences client unconditionally after the connected() check,
so a live client is a precondition).  When already connected it flushes
and returns true.  Otherwise it dials the stored host when the host
string is nonempty and the stored IP otherwise; a failed dial returns
setError(connection-refused) implicitly converted from int to bool; a
successful dial applies the stored timeout to the socket and returns
connected(). -/
def TCPClient.connect (st : TCPClient) (c : LowClient) : Bool × TCPClient :=
  if c.conn then (true, { st with client := some c.drain })
  else
    let d := c.ldial (connectTarget st)
    let st1 := { st with client := some d.2 }
    if d.1 = false then
      let e := st1.setError ESP_SIGNER_ERROR_TCP_ERROR_CONNECTION_REFUSED
      (decide (e.1 ≠ 0), e.2)
    else
      let r := d.2.lsetTimeout st.timeoutmSec
      (r.2.conn, { st1 with client := some r.2 })

/-- The tail of write after the guards: res = client->write(data, size);
a count different from size becomes the send-request-failed error,
otherwise HTTP OK is recorded and size returned.  The null-client arm is
unreachable: write null-checks the client before reaching this point. -/
def TCPClient.writeTail (st : TCPClient) (size : Nat) : Int × TCPClient :=
  match st.client with
  | none => st.setError ESP_SIGNER_ERROR_TCP_ERROR_SEND_REQUEST_FAILED
  | some c =>
    let w := c.lwrite
    let st1 := { st with client := some w.2 }
    if w.1 ≠ (size : Int) then
      st1.setError ESP_SIGNER_ERROR_TCP_ERROR_SEND_REQUEST_FAILED
    else
      let e := st1.setError ESP_SIGNER_ERROR_HTTP_CODE_OK
      ((size : Int), e.2)

/-- size_t write(const uint8_t data, size_t size): the guard chain of
the source, then the socket write.  data is none for a null data
pointer.  The condition !client->connected() && !connect() short
circuits: connect() is only called when the socket reports not
connected, and its bool result (see connect) decides the
connection-refused branch. -/
def TCPClient.write (st : TCPClient) (env : Env) (data : Option (List Int))
    (size : Nat) : Int × TCPClient :=
  match data, st.client with
  | none, _ => st.setError ESP_SIGNER_ERROR_TCP_ERROR_SEND_REQUEST_FAILED
  | some _, none => st.setError ESP_SIGNER_ERROR_TCP_ERROR_SEND_REQUEST_FAILED
  | some _, some c =>
    if size = 0 then st.setError ESP_SIGNER_ERROR_TCP_ERROR_SEND_REQUEST_FAILED
    else if networkReady env = false then
      st.setError ESP_SIGNER_ERROR_TCP_ERROR_NOT_CONNECTED
    else if c.conn then st.writeTail size
    else
      let r := st.connect c
      if r.1 = false then
        r.2.setError ESP_SIGNER_ERROR_TCP_ERROR_CONNECTION_REFUSED
      else r.2.writeTail size

/-- size_t write(uint8_t v): one-byte buffer delegation. -/
def TCPClient.writeByte (st : TCPClient) (env : Env) (v : Int) :
    Int × TCPClient :=
  st.write env (some [v]) 1

/-- The byte view of a C string argument (strlen = length; the modelled
strings carry no embedded NUL). -/
def strBytes (s : String) : List Int :=
  s.toList.map (fun ch => (ch.toNat : Int))

/-- int send(const char data, int len = 0): len 0 means strlen(data). -/
def TCPClient.send (st : TCPClient) (env : Env) (s : String) (len : Nat) :
    Int × TCPClient :=
  if len = 0 then st.write env (some (strBytes s)) s.length
  else st.write env (some (strBytes s)) len

/-- int print(const char data): delegates to send with default length. -/
def TCPClient.print (st : TCPClient) (env : Env) (s : String) :
    Int × TCPClient :=
  st.send env s 0

/-- esp_signer_cert_type getCertType(). -/
def TCPClient.getCertType (st : TCPClient) : CertType :=
  st.certType

/-- void setClockStatus(bool status). -/
def TCPClient.setClockStatus (st : TCPClient) (status : Bool) : TCPClient :=
  { st with clockReady := status }

/-- void setInsecure(): disables certificate validation on the socket
(on ESP32 behind the IDF >= 3.3.0 guard, assumed satisfied). -/
def TCPClient.setInsecure (st : TCPClient) : TCPClient :=
  st.mapLow (fun c => { c with trust := Trust.trustInsecure })

/-- void setCACert(const char caCert): non-null installs the anchor and
records certType data; null stops the socket, records certType none,
clears the ESP32 anchor and switches the socket to insecure.  The
ESP8266 setBufferSizes and setNoDelay calls touch only socket buffer
parameters no claim mentions. -/
def TCPClient.setCACert (p : Platform) (st : TCPClient)
    (caCert : Option String) : TCPClient :=
  match caCert with
  | some _ =>
    let st1 := { st with certType := CertType.type_data }
    st1.mapLow (fun c => { c with trust := Trust.trustAnchor })
  | none =>
    let st1 := { st with certType := CertType.type_none }
    let st2 := st1.mapLow LowClient.lstop
    let st3 :=
      match p with
      | Platform.esp32 => st2.mapLow (fun c => { c with trust := Trust.trustUnset })
      | _ => st2
    st3.setInsecure

/-- The CA-install section of setCertFile that runs after a successful
mbfs->open: the branch the platform, storage type and filesystem build
flags select loads the certificate into the socket trust store and marks
certType file; unselected branches only close the file. -/
def TCPClient.installCA (p : Platform) (cfg : BuildCfg) (st : TCPClient)
    (storageType : StorageType) : TCPClient :=
  match p with
  | Platform.esp32 =>
    match storageType with
    | StorageType.flash =>
      if cfg.flashFS then
        ({ st with certType := CertType.type_file }).mapLow
          (fun c => { c with trust := Trust.trustAnchor })
      else st
    | StorageType.sd =>
      if cfg.esp32SdFat || cfg.sdFS then
        ({ st with certType := CertType.type_file }).mapLow
          (fun c => { c with trust := Trust.trustAnchor })
      else st
    | StorageType.undefinedS => st
  | _ =>
    ({ st with certType := CertType.type_file }).mapLow
      (fun c => { c with trust := Trust.trustAnchor })

/-- bool setCertFile(caCertFile, storageType): result is (return value,
new state, whether mbfs->open was called).  The file branch runs only
when clockReady and the name is nonempty; the leading slash prepended to
the filename only selects which file opens and is part of the oracle.
On open success the CA material is loaded and certType becomes file in
the branch the platform and filesystem build flags select; the return
value is the comparison certType == file after the call. -/
def TCPClient.setCertFile (p : Platform) (cfg : BuildCfg) (fs : FSOracle)
    (st : TCPClient) (caCertFile : String) (storageType : StorageType) :
    Bool × TCPClient × Bool :=
  if st.clockReady && decide (0 < caCertFile.length) then
    if fs.openLen > -1 then
      let inst := st.installCA p cfg storageType
      (decide (inst.certType = CertType.type_file), inst, true)
    else (decide (st.certType = CertType.type_file), st, true)
  else (decide (st.certType = CertType.type_file), st, false)

/-- The ESP_Signer state fields that carry the token backoff: the
timestamp of the last failed attempt and the pause duration, with their
in-class initialisers from the class declaration. -/
structure SignerState where
  authenticated : Bool := false
  unauthen_millis : Nat := 0
  unauthen_pause_duration : Nat := 3000
  deriving DecidableEq

/-- A freshly constructed ESP_Signer. -/
def SignerState.init : SignerState := {}

/-
Small helper lemmas shared by several claims.
-/

theorem drainPending_eq_nil (l : List Int) : drainPending l = [] := by
  induction l with
  | nil => rfl
  | cons b r ih => simpa [drainPending] using ih

theorem lowClient_drain_eq (c : LowClient) :
    c.drain = { c with pending := [] } := by
  simp [LowClient.drain, drainPending_eq_nil]

/-- Claim C7: the pause between consecutive failed token-generation
attempts defaults to a base duration of 3000 milliseconds, stored in the
signer state as unauthen_pause_duration next to the timestamp of the
last failed attempt, unauthen_millis. -/
theorem claimC7_backoff_defaults :
    SignerState.init.unauthen_pause_duration = 3000 ∧
    SignerState.init.unauthen_millis = 0 := by
  exact ⟨rfl, rfl⟩

/-- Claim C9: setError(code) returns -1000 and changes nothing when no
response-code pointer is registered; with a registered pointer it stores
code through the pointer and returns code.  begin(host, port, rc) always
returns true, records exactly host, port and the pointer, and leaves the
socket (hence all network state) untouched. -/
theorem claimC9_setError_begin (st : TCPClient) (code r : Int)
    (host : String) (port : Nat) (rc : Option Int) :
    (st.response_code = none → st.setError code = (-1000, st)) ∧
    (st.response_code = some r →
      st.setError code = (code, { st with response_code := some code })) ∧
    (st.begin host port rc).1 = true ∧
    (st.begin host port rc).2 =
      { st with host := host, port := port, response_code := rc } ∧
    (st.begin host port rc).2.client = st.client := by
  refine ⟨?_, ?_, rfl, rfl, rfl⟩
  · intro h; simp [TCPClient.setError, h]
  · intro h; simp [TCPClient.setError, h]

/-- Witness for claim C9 at concrete states: a fresh client has no
registered pointer, so setError yields -1000 and no change; after
registering a pointer, setError stores and returns the code; begin
returns true. -/
theorem claimC9_witness :
    TCPClient.init.setError 7 = (-1000, TCPClient.init) ∧
    TCPClient.setError { TCPClient.init with response_code := some 0 } 7 =
      (7, { TCPClient.init with response_code := some 7 }) ∧
    (TCPClient.init.begin "oauth2.googleapis.com" 443 (some 0)).1 = true := by
  refine ⟨?_, ?_, ?_⟩
  · exact (claimC9_setError_begin TCPClient.init 7 0 "x" 0 none).1 rfl
  · exact (claimC9_setError_begin
      { TCPClient.init with response_code := some 0 } 7 0 "x" 0 none).2.1 rfl
  · exact (claimC9_setError_begin TCPClient.init 7 0
      "oauth2.googleapis.com" 443 (some 0)).2.2.1

/-- Claim C10: the convenience wrappers delegate to the buffer
primitives: write(v) is write on the one-byte buffer [v]; print(s) is
send(s); send(s, 0) is write(bytes of s, strlen(s)); and the char-buffer
readBytes is the uint8_t-buffer readBytes on the same bytes. -/
theorem claimC10_wrappers (st : TCPClient) (env : Env) (v : Int)
    (s : String) (len : Nat) :
    st.writeByte env v = st.write env (some [v]) 1 ∧
    st.print env s = st.send env s 0 ∧
    st.send env s 0 = st.write env (some (strBytes s)) s.length ∧
    st.readBytesC len = st.readBytes len := by
  refine ⟨rfl, rfl, ?_, rfl⟩
  simp [TCPClient.send]

/-- Claim C8: with a null underlying client every observer and teardown
call is total and harmless: connected() is 0, peek() is 0, stop() and
flush() leave the state unchanged, and available(), read() and
readBytes() return a negative error code (the connection-refused code
through the registered pointer, the -1000 sentinel otherwise) instead of
dereferencing the null pointer. -/
theorem claimC8_null_client_total (st : TCPClient) (len : Nat)
    (h : st.client = none) :
    st.connected = 0 ∧
    st.peek = 0 ∧
    st.stop = st ∧
    st.flush = st ∧
    st.available.1 < 0 ∧
    st.available.1 =
      (st.setError ESP_SIGNER_ERROR_TCP_ERROR_CONNECTION_REFUSED).1 ∧
    st.readOne.1 < 0 ∧
    st.readOne.1 =
      (st.setError ESP_SIGNER_ERROR_TCP_ERROR_CONNECTION_REFUSED).1 ∧
    (st.readBytes len).1 < 0 ∧
    (st.readBytes len).1 =
      (st.setError ESP_SIGNER_ERROR_TCP_ERROR_CONNECTION_REFUSED).1 := by
  have herr : (st.setError ESP_SIGNER_ERROR_TCP_ERROR_CONNECTION_REFUSED).1 < 0 := by
    cases hrc : st.response_code <;>
      simp [TCPClient.setError, hrc, ESP_SIGNER_ERROR_TCP_ERROR_CONNECTION_REFUSED]
  refine ⟨?_, ?_, ?_, ?_, ?_, ?_, ?_, ?_, ?_, ?_⟩ <;>
    simp [TCPClient.connected, TCPClient.peek, TCPClient.stop, TCPClient.flush,
      TCPClient.available, TCPClient.readOne, TCPClient.readBytes, h, herr]

/-- Witness for claim C8: a released client (null socket) with no
registered pointer: all observers answer totally and the read family
returns the -1000 error sentinel. -/
theorem claimC8_witness :
    TCPClient.connected { TCPClient.init with client := none } = 0 ∧
    TCPClient.peek { TCPClient.init with client := none } = 0 ∧
    (TCPClient.readBytes { TCPClient.init with client := none } 4).1 < 0 := by
  have h := claimC8_null_client_total
    { TCPClient.init with client := none } 4 rfl
  exact ⟨h.1, h.2.1, h.2.2.2.2.2.2.2.2.1⟩

/-- Claim C5: readBytes(buf, len) returns the connection-refused error
on a null client; when the socket delivers a count different from len
it returns the response-read-failed error; otherwise it records HTTP OK
through the registered pointer and returns len.  read(buf, size) is
definitionally readBytes(buf, size). -/
theorem claimC5_readBytes (st : TCPClient) (c : LowClient) (len : Nat)
    (r : Int) :
    (st.client = none →
      (st.readBytes len).1 =
        (st.setError ESP_SIGNER_ERROR_TCP_ERROR_CONNECTION_REFUSED).1) ∧
    (st.client = some c → c.readBytesRet ≠ (len : Int) →
      st.readBytes len =
        st.setError ESP_SIGNER_ERROR_TCP_RESPONSE_READ_FAILED) ∧
    (st.client = some c → c.readBytesRet = (len : Int) →
      (st.readBytes len).1 = (len : Int) ∧
      (st.readBytes len).2 =
        (st.setError ESP_SIGNER_ERROR_HTTP_CODE_OK).2) ∧
    (st.client = some c → c.readBytesRet = (len : Int) →
      st.response_code = some r →
      (st.readBytes len).2.response_code =
        some ESP_SIGNER_ERROR_HTTP_CODE_OK) ∧
    st.read len = st.readBytes len := by
  refine ⟨?_, ?_, ?_, ?_, rfl⟩
  · intro h; simp [TCPClient.readBytes, h]
  · intro h hne; simp [TCPClient.readBytes, h, hne]
  · intro h heq; simp [TCPClient.readBytes, h, heq]
  · intro h heq hrc
    simp [TCPClient.readBytes, h, heq, TCPClient.setError, hrc]

/-- Witness for claim C5: a client whose socket delivers exactly 4 bytes
records HTTP OK and returns 4; one that delivers 2 of 4 returns the
response-read-failed error. -/
theorem claimC5_witness :
    (TCPClient.readBytes
      { TCPClient.init with
        response_code := some 0, client := some { readBytesRet := 4 } } 4).1 = 4 ∧
    (TCPClient.readBytes
      { TCPClient.init with
        response_code := some 0, client := some { readBytesRet := 4 } } 4).2.response_code =
      some ESP_SIGNER_ERROR_HTTP_CODE_OK ∧
    (TCPClient.readBytes
      { TCPClient.init with
        response_code := some 0, client := some { readBytesRet := 2 } } 4).1 =
      ESP_SIGNER_ERROR_TCP_RESPONSE_READ_FAILED := by
  refine ⟨?_, ?_, ?_⟩
  · exact ((claimC5_readBytes
      { TCPClient.init with
        response_code := some 0, client := some { readBytesRet := 4 } } { readBytesRet := 4 } 4
      0).2.2.1 rfl (by decide)).1
  · exact (claimC5_readBytes
      { TCPClient.init with
        response_code := some 0, client := some { readBytesRet := 4 } } { readBytesRet := 4 } 4
      0).2.2.2.1 rfl (by decide) rfl
  · have h := (claimC5_readBytes
      { TCPClient.init with
        response_code := some 0, client := some { readBytesRet := 2 } } { readBytesRet := 2 } 4
      0).2.1 rfl (by decide)
    simp [h, TCPClient.setError]

/-- connect() on an already-connected socket: flush and report true. -/
theorem connect_conn_true (st : TCPClient) (c : LowClient)
    (h : c.conn = true) :
    st.connect c = (true, { st with client := some { c with pending := [] } }) := by
  simp [TCPClient.connect, h, lowClient_drain_eq]

/-- connect() when the dial fails: the connection-refused error is
stored through the registered pointer and the nonzero error code comes
back as the bool true. -/
theorem connect_dial_fail (st : TCPClient) (c : LowClient) (r : Int)
    (hrc : st.response_code = some r) (h : c.conn = false)
    (hd : c.dialRet = false) :
    st.connect c = (true,
      { st with
        client := some { c with
          conn := c.connAfterDial,
          dialed := some (connectTarget st) },
        response_code := some ESP_SIGNER_ERROR_TCP_ERROR_CONNECTION_REFUSED }) := by
  simp [TCPClient.connect, h, hd, LowClient.ldial, TCPClient.setError, hrc,
    ESP_SIGNER_ERROR_TCP_ERROR_CONNECTION_REFUSED]

/-- connect() when the dial succeeds: the stored timeout is applied to
the socket and the socket connected state is returned. -/
theorem connect_dial_ok (st : TCPClient) (c : LowClient)
    (h : c.conn = false) (hd : c.dialRet = true) :
    st.connect c = (c.connAfterDial,
      { st with client := some { c with
        conn := c.connAfterDial,
        dialed := some (connectTarget st),
        timeoutSet := some st.timeoutmSec } }) := by
  simp [TCPClient.connect, h, hd, LowClient.ldial, LowClient.lsetTimeout]

/-- A socket that is not connected and whose next dial fails. -/
def dialFailLow : LowClient := { conn := false, dialRet := false }

/-- A client object aimed at a host with a registered response pointer,
owning dialFailLow. -/
def dialFailSt : TCPClient :=
  { TCPClient.init with
    host := "oauth2.googleapis.com", port := 443,
    response_code := some 0, client := some dialFailLow }

/-- Claim C2 counterexample: at a concrete state that is not connected
and whose dial fails, connect() does not return the connection-refused
error as its result: it stores the error through the response pointer
but returns true, the int-to-bool conversion of the nonzero error code. -/
theorem claimC2_counterexample :
    dialFailLow.conn = false ∧
    dialFailLow.dialRet = false ∧
    (dialFailSt.connect dialFailLow).1 = true ∧
    (dialFailSt.connect dialFailLow).2.response_code =
      some ESP_SIGNER_ERROR_TCP_ERROR_CONNECTION_REFUSED := by
  refine ⟨rfl, rfl, ?_, ?_⟩
  · rw [connect_dial_fail dialFailSt dialFailLow 0 rfl rfl rfl]
  · rw [connect_dial_fail dialFailSt dialFailLow 0 rfl rfl rfl]

/-- Claim C2 (amended): connect() on an already-connected socket drains
pending input via flush and returns true with host, port and the
connection unchanged; when not connected it dials the stored host (the
stored IP when no host string is set); on dial failure it stores the
connection-refused error through the registered response pointer and
returns true (the int-to-bool conversion of the nonzero error code);
on dial success it applies the stored timeout to the socket and returns
the connected state. -/
theorem claimC2_connect (st : TCPClient) (c : LowClient) (r : Int)
    (hrc : st.response_code = some r) :
    (c.conn = true →
      st.connect c = (true, { st with client := some { c with pending := [] } }) ∧
      (st.connect c).2.host = st.host ∧
      (st.connect c).2.port = st.port) ∧
    (st.host.length ≠ 0 → connectTarget st = DialTarget.toHost st.host) ∧
    (st.host.length = 0 → connectTarget st = DialTarget.toIP st.ip) ∧
    (c.conn = false → c.dialRet = false →
      (st.connect c).1 = true ∧
      (st.connect c).2.response_code =
        some ESP_SIGNER_ERROR_TCP_ERROR_CONNECTION_REFUSED ∧
      (st.connect c).2.client = some { c with
        conn := c.connAfterDial, dialed := some (connectTarget st) }) ∧
    (c.conn = false → c.dialRet = true →
      (st.connect c).1 = c.connAfterDial ∧
      (st.connect c).2 = { st with client := some { c with
        conn := c.connAfterDial,
        dialed := some (connectTarget st),
        timeoutSet := some st.timeoutmSec } }) := by
  refine ⟨?_, ?_, ?_, ?_, ?_⟩
  · intro h
    rw [connect_conn_true st c h]
    exact ⟨rfl, rfl, rfl⟩
  · intro h; simp [connectTarget, h]
  · intro h; simp [connectTarget, h]
  · intro h hd
    rw [connect_dial_fail st c r hrc h hd]
    exact ⟨rfl, rfl, rfl⟩
  · intro h hd
    rw [connect_dial_ok st c h hd]
    exact ⟨rfl, rfl⟩

/-- Witness for claim C2 (amended): a connected socket with buffered
bytes is reused, drained and connect returns true; a successful dial
applies the stored 10000 ms default timeout to the socket. -/
theorem claimC2_witness :
    (TCPClient.connect
      { TCPClient.init with response_code := some 0 }
      { conn := true, pending := [9, 8] }) =
      (true, { TCPClient.init with
        response_code := some 0,
        client := some { conn := true, pending := [] } }) ∧
    (TCPClient.connect
      { TCPClient.init with
        response_code := some 0, host := "h",
        client := some { conn := false, dialRet := true, connAfterDial := true } }
      { conn := false, dialRet := true, connAfterDial := true }).1 = true := by
  constructor
  · exact ((claimC2_connect
      { TCPClient.init with response_code := some 0 }
      { conn := true, pending := [9, 8] } 0 rfl).1 rfl).1
  · have h := ((claimC2_connect
      { TCPClient.init with
        response_code := some 0, host := "h",
        client := some { conn := false, dialRet := true, connAfterDial := true } }
      { conn := false, dialRet := true, connAfterDial := true } 0 rfl).2.2.2.2
      rfl rfl).1
    simpa using h

/-- Claim C4: setCACert with a non-null certificate installs the trust
anchor on the socket and records certType data; setCACert(NULL) stops
the current connection, records certType none and switches the socket
to insecure mode; getCertType() returns the recorded type. -/
theorem claimC4_setCACert (p : Platform) (st : TCPClient) (c : LowClient)
    (pem : String) (h : st.client = some c) :
    (st.setCACert p (some pem)).certType = CertType.type_data ∧
    (st.setCACert p (some pem)).getCertType = CertType.type_data ∧
    (st.setCACert p (some pem)).client =
      some { c with trust := Trust.trustAnchor } ∧
    (st.setCACert p none).certType = CertType.type_none ∧
    (st.setCACert p none).getCertType = CertType.type_none ∧
    (st.setCACert p none).client = some { c with
      conn := false, stopped := true, trust := Trust.trustInsecure } := by
  cases p <;>
    simp [TCPClient.setCACert, TCPClient.getCertType, TCPClient.mapLow,
      TCPClient.setInsecure, LowClient.lstop, h]

/-- Witness for claim C4: concrete calls on a fresh client on both an
ESP32 and an ESP8266 build. -/
theorem claimC4_witness :
    (TCPClient.setCACert Platform.esp32 TCPClient.init
      (some "ca")).getCertType = CertType.type_data ∧
    (TCPClient.setCACert Platform.esp8266 TCPClient.init
      none).getCertType = CertType.type_none ∧
    (TCPClient.setCACert Platform.esp32 TCPClient.init none).client =
      some { conn := false, stopped := true, trust := Trust.trustInsecure } := by
  have h32 := claimC4_setCACert Platform.esp32 TCPClient.init {} "ca" rfl
  have h86 := claimC4_setCACert Platform.esp8266 TCPClient.init {} "ca" rfl
  exact ⟨h32.2.1, h86.2.2.2.2.1, h32.2.2.2.2.2⟩

/-- Claim C6: the stored transport timeout defaults to 10000 ms;
setTimeout(t) stores t and forwards it to the socket, divided by 1000
into seconds on ESP32, as milliseconds otherwise, returning 1 on the
non-ESP32 fall-through path; and a successful dial inside connect()
re-applies the stored timeout to the socket. -/
theorem claimC6_setTimeout (p : Platform) (st : TCPClient) (c : LowClient)
    (t : Nat) (h : st.client = some c) :
    TCPClient.init.timeoutmSec = 10000 ∧
    (TCPClient.setTimeout p st t).2.timeoutmSec = t ∧
    (p = Platform.esp32 →
      (TCPClient.setTimeout p st t).2.client =
        some { c with timeoutSet := some (t / 1000) } ∧
      (TCPClient.setTimeout p st t).1 = c.setTimeoutRet) ∧
    (p ≠ Platform.esp32 →
      (TCPClient.setTimeout p st t).2.client =
        some { c with timeoutSet := some t } ∧
      (TCPClient.setTimeout p st t).1 = 1) ∧
    (c.conn = false → c.dialRet = true →
      (st.connect c).2.client = some { c with
        conn := c.connAfterDial,
        dialed := some (connectTarget st),
        timeoutSet := some st.timeoutmSec }) := by
  refine ⟨rfl, ?_, ?_, ?_, ?_⟩
  · cases p <;> simp [TCPClient.setTimeout, h, LowClient.lsetTimeout]
  · intro hp
    subst hp
    simp [TCPClient.setTimeout, h, LowClient.lsetTimeout]
  · intro hp
    cases p with
    | esp32 => exact absurd rfl hp
    | esp8266 => simp [TCPClient.setTimeout, h, LowClient.lsetTimeout]
    | pico => simp [TCPClient.setTimeout, h, LowClient.lsetTimeout]
  · intro hc hd
    rw [connect_dial_ok st c hc hd]

/-- Witness for claim C6: concrete setTimeout calls on a fresh client:
25000 ms becomes 25 s on the ESP32 socket, stays 25000 ms and returns 1
on the ESP8266 path, and the stored value is replaced in both cases. -/
theorem claimC6_witness :
    TCPClient.init.timeoutmSec = 10000 ∧
    (TCPClient.setTimeout Platform.esp32 TCPClient.init 25000).2.timeoutmSec = 25000 ∧
    (TCPClient.setTimeout Platform.esp32 TCPClient.init 25000).2.client =
      some { timeoutSet := some 25 } ∧
    (TCPClient.setTimeout Platform.esp8266 TCPClient.init 25000).1 = 1 := by
  have h32 := claimC6_setTimeout Platform.esp32 TCPClient.init {} 25000 rfl
  have h86 := claimC6_setTimeout Platform.esp8266 TCPClient.init {} 25000 rfl
  exact ⟨h32.1, h32.2.1, (h32.2.2.1 rfl).1, (h86.2.2.2.1 (by decide)).2⟩

/-- Each branch of the install section either leaves the state unchanged
(a branch compiled out by the filesystem flags) or marks certType file. -/
theorem installCA_self_or_file (p : Platform) (cfg : BuildCfg)
    (st : TCPClient) (sty : StorageType) :
    TCPClient.installCA p cfg st sty = st ∨
    (TCPClient.installCA p cfg st sty).certType = CertType.type_file := by
  cases p with
  | esp32 =>
    cases sty with
    | flash =>
      by_cases hf : cfg.flashFS = true
      · right; simp [TCPClient.installCA, hf, TCPClient.mapLow]
      · left; simp only [TCPClient.installCA]; rw [if_neg hf]
    | sd =>
      by_cases hf : (cfg.esp32SdFat || cfg.sdFS) = true
      · right; simp only [TCPClient.installCA]; rw [if_pos hf]; rfl
      · left; simp only [TCPClient.installCA]; rw [if_neg hf]
    | undefinedS => left; rfl
  | esp8266 => right; rfl
  | pico => right; rfl

/-- On ESP8266 (and PICO) the install section always marks certType
file after a successful open. -/
theorem installCA_esp8266 (cfg : BuildCfg) (st : TCPClient)
    (sty : StorageType) :
    (TCPClient.installCA Platform.esp8266 cfg st sty).certType =
      CertType.type_file := rfl

/-- Claim C3: setCertFile opens, reads and installs the CA file (marking
certType file) only when the clock has been marked ready and the file
name is nonempty; otherwise the call touches neither the filesystem nor
the state; and the return value is true exactly when certType is file
after the call. -/
theorem claimC3_setCertFile (p : Platform) (cfg : BuildCfg) (fs : FSOracle)
    (st : TCPClient) (f : String) (sty : StorageType) :
    (¬ (st.clockReady = true ∧ 0 < f.length) →
      (TCPClient.setCertFile p cfg fs st f sty).2.1 = st ∧
      (TCPClient.setCertFile p cfg fs st f sty).2.2 = false) ∧
    ((TCPClient.setCertFile p cfg fs st f sty).2.2 = true →
      st.clockReady = true ∧ 0 < f.length) ∧
    ((TCPClient.setCertFile p cfg fs st f sty).2.1.certType =
        CertType.type_file →
      st.certType = CertType.type_file ∨
        (st.clockReady = true ∧ 0 < f.length ∧ fs.openLen > -1)) ∧
    ((TCPClient.setCertFile p cfg fs st f sty).1 = true ↔
      (TCPClient.setCertFile p cfg fs st f sty).2.1.certType =
        CertType.type_file) ∧
    (p = Platform.esp8266 → st.clockReady = true → 0 < f.length →
      fs.openLen > -1 →
      (TCPClient.setCertFile p cfg fs st f sty).2.1.certType =
        CertType.type_file ∧
      (TCPClient.setCertFile p cfg fs st f sty).1 = true) := by
  by_cases hg : st.clockReady = true ∧ 0 < f.length
  · have hb : (st.clockReady && decide (0 < f.length)) = true := by
      simp [hg.1, hg.2]
    by_cases ho : fs.openLen > -1
    · refine ⟨fun h => absurd hg h, fun _ => hg, fun _ => Or.inr ⟨hg.1, hg.2, ho⟩,
        ?_, ?_⟩
      · simp [TCPClient.setCertFile, hb, ho]
      · intro hp _ _ _
        subst hp
        simp [TCPClient.setCertFile, hb, ho, installCA_esp8266]
    · have hst : (TCPClient.setCertFile p cfg fs st f sty).2.1 = st := by
        simp [TCPClient.setCertFile, hb, ho]
      refine ⟨fun h => absurd hg h, fun _ => hg, ?_, ?_, ?_⟩
      · intro hf
        rw [hst] at hf
        exact Or.inl hf
      · simp [TCPClient.setCertFile, hb, ho]
      · intro _ _ _ hopen
        exact absurd hopen ho
  · have hb : (st.clockReady && decide (0 < f.length)) = false := by
      cases hcl : st.clockReady
      · simp
      · have h2 : ¬ 0 < f.length := fun h => hg ⟨hcl, h⟩
        simp [h2]
    have hst : (TCPClient.setCertFile p cfg fs st f sty).2.1 = st := by
      simp [TCPClient.setCertFile, hb]
    refine ⟨?_, ?_, ?_, ?_, ?_⟩
    · intro _
      exact ⟨hst, by simp [TCPClient.setCertFile, hb]⟩
    · intro habs
      simp [TCPClient.setCertFile, hb] at habs
    · intro hf
      rw [hst] at hf
      exact Or.inl hf
    · simp [TCPClient.setCertFile, hb]
    · intro _ hcr hlen _
      exact absurd ⟨hcr, hlen⟩ hg

/-- Witness for claim C3: with the clock not yet ready nothing is opened
and the state is unchanged; with the clock ready, a nonempty name and a
successful open on an ESP8266 build, certType becomes file and the call
returns true. -/
theorem claimC3_witness :
    (TCPClient.setCertFile Platform.esp32 {} {} TCPClient.init
      "ca.pem" StorageType.flash).2.1 = TCPClient.init ∧
    (TCPClient.setCertFile Platform.esp32 {} {} TCPClient.init
      "ca.pem" StorageType.flash).2.2 = false ∧
    (TCPClient.setCertFile Platform.esp8266 {} { openLen := 100 }
      { TCPClient.init with clockReady := true } "ca.pem"
      StorageType.flash).2.1.certType = CertType.type_file ∧
    (TCPClient.setCertFile Platform.esp8266 {} { openLen := 100 }
      { TCPClient.init with clockReady := true } "ca.pem"
      StorageType.flash).1 = true := by
  have h1 := (claimC3_setCertFile Platform.esp32 {} {} TCPClient.init
    "ca.pem" StorageType.flash).1 (by simp [TCPClient.init])
  have h2 := (claimC3_setCertFile Platform.esp8266 {} { openLen := 100 }
    { TCPClient.init with clockReady := true } "ca.pem"
    StorageType.flash).2.2.2.2 rfl rfl (by decide) (by decide)
  exact ⟨h1.1, h1.2, h2.1, h2.2⟩

/-- The post-guard section of write: a socket count different from size
yields the send-request-failed error, an exact count records HTTP OK and
returns size. -/
theorem writeTail_spec (st : TCPClient) (c : LowClient) (r : Int)
    (size : Nat) (h : st.client = some c) (hrc : st.response_code = some r) :
    (c.writeRet ≠ (size : Int) →
      st.writeTail size = (ESP_SIGNER_ERROR_TCP_ERROR_SEND_REQUEST_FAILED,
        { st with
          client := some { c with writeCalls := c.writeCalls + 1 },
          response_code := some ESP_SIGNER_ERROR_TCP_ERROR_SEND_REQUEST_FAILED })) ∧
    (c.writeRet = (size : Int) →
      st.writeTail size = ((size : Int),
        { st with
          client := some { c with writeCalls := c.writeCalls + 1 },
          response_code := some ESP_SIGNER_ERROR_HTTP_CODE_OK })) := by
  constructor <;> intro hw <;>
    simp [TCPClient.writeTail, h, LowClient.lwrite, hw, TCPClient.setError, hrc]

/-- Claim C1: write(data, size) returns the send-request-failed error on
a null data pointer, a null client or a zero size; the not-connected
error, touching nothing but the response code, when networkReady()
reports the network down; the connection-refused error when the socket
is not connected and connect() comes back false; the send-request-failed
error when the socket writes a count different from size; and only when
exactly size bytes are written does it record HTTP OK and return size
(on the already-connected path and on the freshly-connected path alike). -/
theorem claimC1_write (st : TCPClient) (env : Env) (c : LowClient)
    (data : List Int) (size : Nat) (r : Int)
    (hrc : st.response_code = some r) :
    (st.write env none size).1 =
      ESP_SIGNER_ERROR_TCP_ERROR_SEND_REQUEST_FAILED ∧
    (st.client = none →
      (st.write env (some data) size).1 =
        ESP_SIGNER_ERROR_TCP_ERROR_SEND_REQUEST_FAILED) ∧
    (size = 0 →
      (st.write env (some data) size).1 =
        ESP_SIGNER_ERROR_TCP_ERROR_SEND_REQUEST_FAILED) ∧
    (networkReady env = false → st.client = some c → size ≠ 0 →
      (st.write env (some data) size).1 =
        ESP_SIGNER_ERROR_TCP_ERROR_NOT_CONNECTED ∧
      (st.write env (some data) size).2 =
        { st with
          response_code := some ESP_SIGNER_ERROR_TCP_ERROR_NOT_CONNECTED }) ∧
    (networkReady env = true → st.client = some c → size ≠ 0 →
      c.conn = false → (st.connect c).1 = false →
      (st.write env (some data) size).1 =
        ESP_SIGNER_ERROR_TCP_ERROR_CONNECTION_REFUSED ∧
      (st.write env (some data) size).2.response_code =
        some ESP_SIGNER_ERROR_TCP_ERROR_CONNECTION_REFUSED) ∧
    (networkReady env = true → st.client = some c → size ≠ 0 →
      c.conn = true → c.writeRet ≠ (size : Int) →
      (st.write env (some data) size).1 =
        ESP_SIGNER_ERROR_TCP_ERROR_SEND_REQUEST_FAILED ∧
      (st.write env (some data) size).2.response_code =
        some ESP_SIGNER_ERROR_TCP_ERROR_SEND_REQUEST_FAILED) ∧
    (networkReady env = true → st.client = some c → size ≠ 0 →
      c.conn = true → c.writeRet = (size : Int) →
      (st.write env (some data) size).1 = (size : Int) ∧
      (st.write env (some data) size).2.response_code =
        some ESP_SIGNER_ERROR_HTTP_CODE_OK) ∧
    (networkReady env = true → st.client = some c → size ≠ 0 →
      c.conn = false → (st.connect c).1 = true →
      ((c.writeRet ≠ (size : Int) →
        (st.write env (some data) size).1 =
          ESP_SIGNER_ERROR_TCP_ERROR_SEND_REQUEST_FAILED) ∧
       (c.writeRet = (size : Int) →
        (st.write env (some data) size).1 = (size : Int) ∧
        (st.write env (some data) size).2.response_code =
          some ESP_SIGNER_ERROR_HTTP_CODE_OK))) := by
  refine ⟨?_, ?_, ?_, ?_, ?_, ?_, ?_, ?_⟩
  · cases hc : st.client <;>
      simp [TCPClient.write, hc, TCPClient.setError, hrc]
  · intro hc
    simp [TCPClient.write, hc, TCPClient.setError, hrc]
  · intro hsz
    cases hc : st.client <;>
      simp [TCPClient.write, hc, hsz, TCPClient.setError, hrc]
  · intro hn hc hsz
    simp [TCPClient.write, hc, hsz, hn, TCPClient.setError, hrc]
  · intro hn hc hsz hcc hres
    cases hd : c.dialRet
    · rw [connect_dial_fail st c r hrc hcc hd] at hres
      simp at hres
    · have hco := connect_dial_ok st c hcc hd
      rw [hco] at hres
      simp only at hres
      simp [TCPClient.write, hc, hsz, hn, hcc, hco, hres,
        TCPClient.setError, hrc]
  · intro hn hc hsz hcc hw
    have hwt := (writeTail_spec st c r size hc hrc).1 hw
    simp [TCPClient.write, hc, hsz, hn, hcc, hwt]
  · intro hn hc hsz hcc hw
    have hwt := (writeTail_spec st c r size hc hrc).2 hw
    simp [TCPClient.write, hc, hsz, hn, hcc, hwt]
  · intro hn hc hsz hcc hres
    cases hd : c.dialRet
    · have hcf := connect_dial_fail st c r hrc hcc hd
      constructor
      · intro hw
        have hwt := (writeTail_spec (st.connect c).2
          { c with
            conn := c.connAfterDial,
            dialed := some (connectTarget st) }
          ESP_SIGNER_ERROR_TCP_ERROR_CONNECTION_REFUSED size
          (by rw [hcf]) (by rw [hcf])).1 hw
        simp [TCPClient.write, hc, hsz, hn, hcc, hres, hwt]
      · intro hw
        have hwt := (writeTail_spec (st.connect c).2
          { c with
            conn := c.connAfterDial,
            dialed := some (connectTarget st) }
          ESP_SIGNER_ERROR_TCP_ERROR_CONNECTION_REFUSED size
          (by rw [hcf]) (by rw [hcf])).2 hw
        simp [TCPClient.write, hc, hsz, hn, hcc, hres, hwt]
    · have hco := connect_dial_ok st c hcc hd
      constructor
      · intro hw
        have hwt := (writeTail_spec (st.connect c).2
          { c with
            conn := c.connAfterDial,
            dialed := some (connectTarget st),
            timeoutSet := some st.timeoutmSec } r size
          (by rw [hco]) (by rw [hco]; exact hrc)).1 hw
        simp [TCPClient.write, hc, hsz, hn, hcc, hres, hwt]
      · intro hw
        have hwt := (writeTail_spec (st.connect c).2
          { c with
            conn := c.connAfterDial,
            dialed := some (connectTarget st),
            timeoutSet := some st.timeoutmSec } r size
          (by rw [hco]) (by rw [hco]; exact hrc)).2 hw
        simp [TCPClient.write, hc, hsz, hn, hcc, hres, hwt]

/-- Witness for claim C1 at concrete states: on a connected socket that
accepts all 5 bytes the call returns 5 and records HTTP OK; a null data
pointer yields the send-request-failed error; with the network down the
not-connected error comes back. -/
theorem claimC1_witness :
    (TCPClient.write
      { TCPClient.init with
        response_code := some 0, client := some { conn := true, writeRet := 5 } }
      { wifiConnected := true } (some [72, 69, 76, 76, 79]) 5).1 = 5 ∧
    (TCPClient.write
      { TCPClient.init with
        response_code := some 0, client := some { conn := true, writeRet := 5 } }
      { wifiConnected := true }
      (some [72, 69, 76, 76, 79]) 5).2.response_code =
      some ESP_SIGNER_ERROR_HTTP_CODE_OK ∧
    (TCPClient.write { TCPClient.init with response_code := some 0 }
      { wifiConnected := true } none 5).1 =
      ESP_SIGNER_ERROR_TCP_ERROR_SEND_REQUEST_FAILED ∧
    (TCPClient.write
      { TCPClient.init with
        response_code := some 0, client := some { conn := true, writeRet := 5 } }
      {} (some [72, 69, 76, 76, 79]) 5).1 =
      ESP_SIGNER_ERROR_TCP_ERROR_NOT_CONNECTED := by
  have hok := (claimC1_write
    { TCPClient.init with
      response_code := some 0, client := some { conn := true, writeRet := 5 } }
    { wifiConnected := true } { conn := true, writeRet := 5 }
    [72, 69, 76, 76, 79] 5 0 rfl).2.2.2.2.2.2.1
    rfl rfl (by decide) rfl (by decide)
  have hnull := (claimC1_write
    { TCPClient.init with response_code := some 0 }
    { wifiConnected := true } {} [] 5 0 rfl).1
  have hdown := ((claimC1_write
    { TCPClient.init with
      response_code := some 0, client := some { conn := true, writeRet := 5 } }
    {} { conn := true, writeRet := 5 } [72, 69, 76, 76, 79] 5 0 rfl).2.2.2.1
    rfl rfl (by decide)).1
  exact ⟨hok.1, hok.2, hnull, hdown⟩
